import Mathlib

/-!
Verification of the MicroBee-OS emulator core (src/memory.rs, src/cpu.rs,
src/main.rs): a shallow embedding of the Memory module and the CPU
execution engine, followed by theorems about the embedded definitions.

Modelling conventions:
* Machine integers are `Nat`.  The Rust fields are `u8`/`u16`; wherever the
  Rust code performs wrapping arithmetic (`wrapping_add`, `wrapping_sub`,
  `wrapping_mul`, release-mode `+=`), the embedding takes the result modulo
  `2^8` or `2^16`.  Bitwise operators (`&`, `|`, `^`, `<<`, `>>`) are
  embedded as the corresponding `Nat` bitwise operations.
* `Result<T, String>` becomes `Except Err T`; each distinct error message
  produced by the Rust code becomes one constructor of `Err`, carrying the
  data interpolated into the message.
* Methods taking `&mut self` become functions from the state to a pair of
  the `Except` result and the post state (on `Err` the mutations performed
  before the failure persist, exactly as in Rust).
* The `.unwrap()` calls in `jp`/`jn` abort the process on failure; this is
  a distinct outcome (`ExecOutcome.panic`) from a returned error
  (`ExecOutcome.err`), which the run loop catches.
* The Rust `run` loop may diverge, so the embedding adds a fuel parameter;
  `RunResult.fuelOut` marks fuel exhaustion (still running), `.done` marks
  a genuine exit of the `while !self.halted` loop.
-/

/-- Error values of the emulator.  Each constructor corresponds to one
distinct error `String` produced by the Rust source, carrying the values
interpolated into the format string. -/
inductive Err where
  /-- "Memory read out of bounds at address: {address}" -/
  | memReadOOB (address : Nat)
  /-- "Memory write out of bounds at address: {address}" -/
  | memWriteOOB (address : Nat)
  /-- "Memory read_u16 out of bounds at address: {address}" -/
  | memReadU16OOB (address : Nat)
  /-- "Memory write_u16 out of bounds at address: {address}" -/
  | memWriteU16OOB (address : Nat)
  /-- "Division by zero" -/
  | divisionByZero
  /-- "Stack overflow - not enough space to push PC" (from `call`) -/
  | stackOverflowCall
  /-- "Stack underflow" (from the `checked_sub` in `push` and `int`) -/
  | stackUnderflow
  /-- "Failed to write to memory" (the `map_err` in `int`) -/
  | intWriteFailed
  /-- "Failed to push value to memory: {inner}" (the `map_err` in `push`) -/
  | pushFailed (inner : Err)
  /-- "Unknown instruction: {opcode} at PC: {pc}" -/
  | unknownInstruction (opcode : Nat) (pc : Nat)
deriving DecidableEq

/-- `Memory` (src/memory.rs): memory stored as a vector of bytes. -/
structure Memory where
  data : List Nat
deriving DecidableEq

/-- `Memory::new`: a zero-filled memory of the given size. -/
def Memory.new (size : Nat) : Memory :=
  ⟨List.replicate size 0⟩

/-- `Memory::size`. -/
def Memory.size (m : Memory) : Nat :=
  m.data.length

/-- `Memory::read`: read a byte from a certain address. -/
def Memory.read (m : Memory) (address : Nat) : Except Err Nat :=
  if address ≥ m.data.length then
    .error (.memReadOOB address)
  else
    .ok (m.data.getD address 0)

/-- `Memory::write`: write a byte to a certain address. -/
def Memory.write (m : Memory) (address value : Nat) : Except Err Memory :=
  if address ≥ m.data.length then
    .error (.memWriteOOB address)
  else
    .ok ⟨m.data.set address value⟩

/-- `Memory::read_u16`: read a 16-bit little-endian value. -/
def Memory.read_u16 (m : Memory) (address : Nat) : Except Err Nat :=
  if address + 1 ≥ m.data.length then
    .error (.memReadU16OOB address)
  else
    -- low byte at `address`, high byte at `address + 1`, `(high << 8) | low`
    .ok ((m.data.getD (address + 1) 0 <<< 8) ||| m.data.getD address 0)

/-- `Memory::write_u16`: write a 16-bit little-endian value
(low byte at `address`, high byte at `address + 1`). -/
def Memory.write_u16 (m : Memory) (address value : Nat) : Except Err Memory :=
  if address + 1 ≥ m.data.length then
    .error (.memWriteU16OOB address)
  else
    -- low byte `value & 0x00FF` at `address`, high byte `(value >> 8) & 0x00FF`
    .ok ⟨(m.data.set address (value &&& 0x00FF)).set (address + 1) ((value >>> 8) &&& 0x00FF)⟩

/-- `CPU` (src/cpu.rs): the processor state. -/
structure CPU where
  pc : Nat
  acc : Nat
  reg_a : Nat
  reg_b : Nat
  memory : Memory
  halted : Bool
  sp : Nat
  interrupts_enabled : Bool
deriving DecidableEq

/-- `CPU::new`: create a CPU with a zero-filled memory of the given size. -/
def CPU.new (memory_size : Nat) : CPU :=
  { pc := 0
    acc := 0
    reg_a := 0
    reg_b := 0
    memory := Memory.new memory_size
    halted := false
    sp := 0
    interrupts_enabled := false }

/-- `CPU::fetch`: read the byte at `pc`, then advance `pc` by 1 with
modulo-2^16 wraparound (`wrapping_add`). -/
def CPU.fetch (c : CPU) : Except Err Nat × CPU :=
  match c.memory.read c.pc with
  | .error e => (.error e, c)
  | .ok instruction => (.ok instruction, { c with pc := (c.pc + 1) % 65536 })

/-- `CPU::fetch_address`: two fetches combined little-endian
(`(high_byte << 8) | low_byte`). -/
def CPU.fetch_address (c : CPU) : Except Err Nat × CPU :=
  match c.fetch with
  | (.error e, c1) => (.error e, c1)
  | (.ok low_byte, c1) =>
    match c1.fetch with
    | (.error e, c2) => (.error e, c2)
    | (.ok high_byte, c2) => (.ok ((high_byte <<< 8) ||| low_byte), c2)

/-- `CPU::mov`: `reg_b := reg_a`. -/
def CPU.mov (c : CPU) : CPU :=
  { c with reg_b := c.reg_a }

/-- `CPU::mul`: `acc := reg_a * reg_b` with `wrapping_mul` on `u8`. -/
def CPU.mul (c : CPU) : CPU :=
  { c with acc := c.reg_a * c.reg_b % 256 }

/-- `CPU::div`: fails when `reg_b == 0`, otherwise `acc := reg_a / reg_b`. -/
def CPU.div (c : CPU) : Except Err Unit × CPU :=
  if c.reg_b = 0 then
    (.error .divisionByZero, c)
  else
    (.ok (), { c with acc := c.reg_a / c.reg_b })

/-- `CPU::cmp`: a no-op placeholder returning `Ok(())`. -/
def CPU.cmp (_c : CPU) : Except Err Unit :=
  .ok ()

/-- `CPU::call`: fetch the target, require `sp >= 2`, decrement `sp` by 2,
push `pc` (16-bit little-endian) at the new `sp`, jump to the target. -/
def CPU.call (c : CPU) : Except Err Unit × CPU :=
  match c.fetch_address with
  | (.error e, c1) => (.error e, c1)
  | (.ok address, c1) =>
    if c1.sp < 2 then
      (.error .stackOverflowCall, c1)
    else
      let c2 := { c1 with sp := c1.sp - 2 }
      match c2.memory.write_u16 c2.sp c2.pc with
      | .error e => (.error e, c2)
      | .ok m => (.ok (), { c2 with memory := m, pc := address })

/-- `CPU::ret`: increment `sp` by 2 (u16 addition, modulo 2^16), then
WRITE `pc` (16-bit little-endian) at the new `sp` — the source writes,
not reads, and never assigns `pc`. -/
def CPU.ret (c : CPU) : Except Err Unit × CPU :=
  let c1 := { c with sp := (c.sp + 2) % 65536 }
  match c1.memory.write_u16 c1.sp c1.pc with
  | .error e => (.error e, c1)
  | .ok m => (.ok (), { c1 with memory := m })

/-- `CPU::jp`: if the condition holds, `pc := fetch_address().unwrap()`.
An `Except.error` result models the `unwrap` panic. -/
def CPU.jp (c : CPU) (condition : Bool) : Except Err CPU :=
  if condition then
    match c.fetch_address with
    | (.error e, _) => .error e
    | (.ok address, c1) => .ok { c1 with pc := address }
  else
    .ok c

/-- `CPU::jn`: same body as `jp`. -/
def CPU.jn (c : CPU) (condition : Bool) : Except Err CPU :=
  if condition then
    match c.fetch_address with
    | (.error e, _) => .error e
    | (.ok address, c1) => .ok { c1 with pc := address }
  else
    .ok c

/-- `CPU::int`: fetch the vector, write `pc` at the current `sp`
(mapping any write error to `intWriteFailed`), then `checked_sub` the
stack pointer by 2, then jump to the vector. -/
def CPU.int (c : CPU) : Except Err Unit × CPU :=
  match c.fetch_address with
  | (.error e, c1) => (.error e, c1)
  | (.ok interrupt_vector, c1) =>
    match c1.memory.write_u16 c1.sp c1.pc with
    | .error _ => (.error .intWriteFailed, c1)
    | .ok m =>
      let c2 := { c1 with memory := m }
      if c2.sp < 2 then
        (.error .stackUnderflow, c2)
      else
        (.ok (), { c2 with sp := c2.sp - 2, pc := interrupt_vector })

/-- `CPU::cli`. -/
def CPU.cli (c : CPU) : CPU :=
  { c with interrupts_enabled := false }

/-- `CPU::sei`. -/
def CPU.sei (c : CPU) : CPU :=
  { c with interrupts_enabled := true }

/-- `CPU::push`: `checked_sub` the stack pointer by 1, then write the byte
at the new `sp` (wrapping any write error in `pushFailed`). -/
def CPU.push (c : CPU) (value : Nat) : Except Err Unit × CPU :=
  if c.sp = 0 then
    (.error .stackUnderflow, c)
  else
    let c1 := { c with sp := c.sp - 1 }
    match c1.memory.write c1.sp value with
    | .error e => (.error (.pushFailed e), c1)
    | .ok m => (.ok (), { c1 with memory := m })

/-- `CPU::pop`: read the byte at `sp`, then increment `sp`
(`wrapping_add` on `u16`). -/
def CPU.pop (c : CPU) : Except Err Nat × CPU :=
  match c.memory.read c.sp with
  | .error e => (.error e, c)
  | .ok value => (.ok value, { c with sp := (c.sp + 1) % 65536 })

/-- Outcome of `CPU::execute`: normal return, returned error (state after
the partial mutations persists, as with `&mut self`), or a process abort
from an `unwrap` panic. -/
inductive ExecOutcome where
  | ok (cpu : CPU)
  | err (e : Err) (cpu : CPU)
  | panic (e : Err)
deriving DecidableEq

/-- `CPU::execute`: decode the opcode byte and perform the instruction. -/
def CPU.execute (c : CPU) (instruction : Nat) : ExecOutcome :=
  match instruction with
  -- LOAD
  | 0x01 =>
    match c.fetch_address with
    | (.error e, c1) => .err e c1
    | (.ok address, c1) =>
      match c1.memory.read address with
      | .error e => .err e c1
      | .ok v => .ok { c1 with acc := v }
  -- STORE
  | 0x02 =>
    match c.fetch_address with
    | (.error e, c1) => .err e c1
    | (.ok address, c1) =>
      match c1.memory.write address c1.acc with
      | .error e => .err e c1
      | .ok m => .ok { c1 with memory := m }
  -- ADD (wrapping)
  | 0x03 =>
    match c.fetch_address with
    | (.error e, c1) => .err e c1
    | (.ok address, c1) =>
      match c1.memory.read address with
      | .error e => .err e c1
      | .ok v => .ok { c1 with acc := (c1.acc + v) % 256 }
  -- SUB (wrapping)
  | 0x04 =>
    match c.fetch_address with
    | (.error e, c1) => .err e c1
    | (.ok address, c1) =>
      match c1.memory.read address with
      | .error e => .err e c1
      | .ok v => .ok { c1 with acc := (c1.acc + 256 - v % 256) % 256 }
  -- INC (wrapping)
  | 0x07 => .ok { c with acc := (c.acc + 1) % 256 }
  -- DEC (wrapping)
  | 0x08 => .ok { c with acc := (c.acc + 255) % 256 }
  -- AND
  | 0x09 =>
    match c.fetch_address with
    | (.error e, c1) => .err e c1
    | (.ok address, c1) =>
      match c1.memory.read address with
      | .error e => .err e c1
      | .ok v => .ok { c1 with acc := c1.acc &&& v }
  -- OR
  | 0x0A =>
    match c.fetch_address with
    | (.error e, c1) => .err e c1
    | (.ok address, c1) =>
      match c1.memory.read address with
      | .error e => .err e c1
      | .ok v => .ok { c1 with acc := c1.acc ||| v }
  -- XOR
  | 0x0B =>
    match c.fetch_address with
    | (.error e, c1) => .err e c1
    | (.ok address, c1) =>
      match c1.memory.read address with
      | .error e => .err e c1
      | .ok v => .ok { c1 with acc := c1.acc ^^^ v }
  -- JMP
  | 0x10 =>
    match c.fetch_address with
    | (.error e, c1) => .err e c1
    | (.ok address, c1) => .ok { c1 with pc := address }
  -- JZ
  | 0x11 =>
    match c.fetch_address with
    | (.error e, c1) => .err e c1
    | (.ok address, c1) =>
      if c1.acc = 0 then .ok { c1 with pc := address } else .ok c1
  -- JNZ
  | 0x12 =>
    match c.fetch_address with
    | (.error e, c1) => .err e c1
    | (.ok address, c1) =>
      if c1.acc ≠ 0 then .ok { c1 with pc := address } else .ok c1
  -- LDA
  | 0x13 =>
    match c.fetch with
    | (.error e, c1) => .err e c1
    | (.ok v, c1) => .ok { c1 with acc := v }
  -- MOV
  | 0x14 => .ok c.mov
  -- MUL
  | 0x15 => .ok c.mul
  -- DIV
  | 0x16 =>
    match c.div with
    | (.error e, c1) => .err e c1
    | (.ok _, c1) => .ok c1
  -- CMP
  | 0x17 =>
    match c.cmp with
    | .error e => .err e c
    | .ok _ => .ok c
  -- CALL
  | 0x18 =>
    match CPU.call c with
    | (.error e, c1) => .err e c1
    | (.ok _, c1) => .ok c1
  -- RET
  | 0x19 =>
    match c.ret with
    | (.error e, c1) => .err e c1
    | (.ok _, c1) => .ok c1
  -- JP (always taken)
  | 0x1A =>
    match c.jp true with
    | .error e => .panic e
    | .ok c1 => .ok c1
  -- JN (always taken)
  | 0x1B =>
    match c.jn true with
    | .error e => .panic e
    | .ok c1 => .ok c1
  -- INT
  | 0x1C =>
    match c.int with
    | (.error e, c1) => .err e c1
    | (.ok _, c1) => .ok c1
  -- CLI
  | 0x1D => .ok c.cli
  -- SEI
  | 0x1E => .ok c.sei
  -- PUSH reg_a
  | 0x1F =>
    match c.push c.reg_a with
    | (.error e, c1) => .err e c1
    | (.ok _, c1) => .ok c1
  -- POP reg_a
  | 0x20 =>
    match c.pop with
    | (.error e, c1) => .err e c1
    | (.ok v, c1) => .ok { c1 with reg_a := v }
  -- HALT
  | 0xFF => .ok { c with halted := true }
  -- unknown opcode: the error string interpolates the opcode and the
  -- current value of `self.pc` (already advanced past the opcode byte)
  | op => .err (.unknownInstruction op c.pc) c

/-- Result of the fuelled run loop. -/
inductive RunResult where
  /-- The `while !self.halted` loop exited. -/
  | done (cpu : CPU)
  /-- Fuel ran out with the loop still running. -/
  | fuelOut (cpu : CPU)
  /-- The process aborted on an `unwrap` panic inside `jp`/`jn`. -/
  | panicked (e : Err)
deriving DecidableEq

/-- `CPU::run`: loop while not halted; a fetch error or an execute error
sets `halted` and the loop exits on the next test.  Fuel bounds the number
of iterations so the function is total. -/
def CPU.run : Nat → CPU → RunResult
  | 0, c => if c.halted then .done c else .fuelOut c
  | fuel + 1, c =>
    if c.halted then
      .done c
    else
      match c.fetch with
      | (.error _, c1) => CPU.run fuel { c1 with halted := true }
      | (.ok instruction, c1) =>
        match c1.execute instruction with
        | .ok c2 => CPU.run fuel c2
        | .err _ c2 => CPU.run fuel { c2 with halted := true }
        | .panic e => .panicked e

/-- The set of opcode bytes the decode match of `CPU::execute` recognizes:
0x01–0x04, 0x07–0x0B, 0x10–0x20 and 0xFF. -/
def knownOpcode (b : Nat) : Bool :=
  (1 ≤ b && b ≤ 4) || (7 ≤ b && b ≤ 0x0B) || (0x10 ≤ b && b ≤ 0x20) || b == 0xFF

/-! ### Helper lemmas shared by the claim theorems -/

theorem Memory.read_of_getElem (m : Memory) (a v : Nat) (h : m.data[a]? = some v) :
    m.read a = .ok v := by
  have hlen : a < m.data.length := by
    by_contra hc
    rw [List.getElem?_eq_none (by omega)] at h
    cases h
  unfold Memory.read
  rw [if_neg (by omega), List.getD_eq_getElem?_getD, h]
  rfl

theorem Memory.write_ok (m : Memory) (a v : Nat) (h : a < m.data.length) :
    m.write a v = .ok ⟨m.data.set a v⟩ := by
  unfold Memory.write
  rw [if_neg (by omega)]

theorem CPU.fetch_ok (c : CPU) (b : Nat) (h : c.memory.read c.pc = .ok b) :
    c.fetch = (.ok b, { c with pc := (c.pc + 1) % 65536 }) := by
  unfold CPU.fetch
  rw [h]

theorem CPU.fetch_address_ok (c c1 c2 : CPU) (lo hi : Nat)
    (h1 : c.fetch = (.ok lo, c1)) (h2 : c1.fetch = (.ok hi, c2)) :
    c.fetch_address = (.ok ((hi <<< 8) ||| lo), c2) := by
  unfold CPU.fetch_address
  simp only [h1, h2]

theorem CPU.run_halted (fuel : Nat) (c : CPU) (h : c.halted = true) :
    CPU.run fuel c = .done c := by
  cases fuel <;> simp [CPU.run, h]

theorem CPU.run_step_ok (fuel : Nat) (c c1 c2 : CPU) (b : Nat)
    (hh : c.halted = false) (hf : c.fetch = (.ok b, c1)) (he : c1.execute b = .ok c2) :
    CPU.run (fuel + 1) c = CPU.run fuel c2 := by
  simp [CPU.run, hh, hf, he]

theorem CPU.execute_lda (c cx : CPU) (v : Nat) (hf : c.fetch = (.ok v, cx)) :
    c.execute 0x13 = .ok { cx with acc := v } := by
  have h : c.execute 0x13 = (match c.fetch with
    | (.error e, cy) => ExecOutcome.err e cy
    | (.ok w, cy) => .ok { cy with acc := w }) := rfl
  rw [h, hf]

theorem CPU.execute_inc (c : CPU) :
    c.execute 0x07 = .ok { c with acc := (c.acc + 1) % 256 } := rfl

theorem CPU.execute_halt (c : CPU) :
    c.execute 0xFF = .ok { c with halted := true } := rfl

theorem CPU.execute_store (c cx : CPU) (a : Nat) (m : Memory)
    (hf : c.fetch_address = (.ok a, cx)) (hw : cx.memory.write a cx.acc = .ok m) :
    c.execute 0x02 = .ok { cx with memory := m } := by
  have h : c.execute 0x02 = (match c.fetch_address with
    | (.error e, cy) => ExecOutcome.err e cy
    | (.ok ad, cy) =>
      match cy.memory.write ad cy.acc with
      | .error e => ExecOutcome.err e cy
      | .ok mm => ExecOutcome.ok { cy with memory := mm }) := rfl
  rw [h, hf]
  simp only [hw]

/-! ### The bootstrap program of src/main.rs -/

/-- The zero-filled 64KB memory contents of `CPU::new(64 * 1024)`. -/
def mainZero : List Nat := List.replicate (64 * 1024) 0

/-- Memory contents after the seven `cpu.memory.write` calls of `main`. -/
def mainData : List Nat :=
  ((((((mainZero.set 0 0x13).set 1 10).set 2 0x07).set 3 0x02).set 4 0x20).set 5 0x00).set 6 0xFF

/-- The seven `cpu.memory.write(..)?` calls of `main`, chained as the `?`
operator chains them. -/
def mainMemory : Except Err Memory :=
  ((CPU.new (64 * 1024)).memory.write 0 0x13).bind fun m =>
  (m.write 1 10).bind fun m =>
  (m.write 2 0x07).bind fun m =>
  (m.write 3 0x02).bind fun m =>
  (m.write 4 0x20).bind fun m =>
  (m.write 5 0x00).bind fun m =>
  m.write 6 0xFF

theorem mainZero_len : mainZero.length = 65536 := by
  rw [mainZero, List.length_replicate]

theorem mainData_len : mainData.length = 65536 := by
  rw [mainData]
  simp only [List.length_set]
  exact mainZero_len

theorem mainMemory_eq : mainMemory = .ok ⟨mainData⟩ := by
  have hbind : ∀ (x : Memory) (f : Memory → Except Err Memory),
      (Except.ok x).bind f = f x := fun _ _ => rfl
  unfold mainMemory
  rw [show (CPU.new (64 * 1024)).memory = (⟨mainZero⟩ : Memory) from rfl]
  rw [Memory.write_ok _ 0 0x13 (by simp [mainZero_len])]
  simp only [hbind]
  rw [Memory.write_ok _ 1 10 (by simp [List.length_set, mainZero_len])]
  simp only [hbind]
  rw [Memory.write_ok _ 2 0x07 (by simp [List.length_set, mainZero_len])]
  simp only [hbind]
  rw [Memory.write_ok _ 3 0x02 (by simp [List.length_set, mainZero_len])]
  simp only [hbind]
  rw [Memory.write_ok _ 4 0x20 (by simp [List.length_set, mainZero_len])]
  simp only [hbind]
  rw [Memory.write_ok _ 5 0x00 (by simp [List.length_set, mainZero_len])]
  simp only [hbind]
  rw [Memory.write_ok _ 6 0xFF (by simp [List.length_set, mainZero_len])]
  rfl

theorem mainData_at0 : mainData[0]? = some 0x13 := by
  rw [mainData]
  rw [List.getElem?_set_ne (by omega), List.getElem?_set_ne (by omega),
    List.getElem?_set_ne (by omega), List.getElem?_set_ne (by omega),
    List.getElem?_set_ne (by omega), List.getElem?_set_ne (by omega)]
  rw [List.getElem?_set_self (by simp [mainZero_len])]

theorem mainData_at1 : mainData[1]? = some 10 := by
  rw [mainData]
  rw [List.getElem?_set_ne (by omega), List.getElem?_set_ne (by omega),
    List.getElem?_set_ne (by omega), List.getElem?_set_ne (by omega),
    List.getElem?_set_ne (by omega)]
  rw [List.getElem?_set_self (by simp [List.length_set, mainZero_len])]

theorem mainData_at2 : mainData[2]? = some 0x07 := by
  rw [mainData]
  rw [List.getElem?_set_ne (by omega), List.getElem?_set_ne (by omega),
    List.getElem?_set_ne (by omega), List.getElem?_set_ne (by omega)]
  rw [List.getElem?_set_self (by simp [List.length_set, mainZero_len])]

theorem mainData_at3 : mainData[3]? = some 0x02 := by
  rw [mainData]
  rw [List.getElem?_set_ne (by omega), List.getElem?_set_ne (by omega),
    List.getElem?_set_ne (by omega)]
  rw [List.getElem?_set_self (by simp [List.length_set, mainZero_len])]

theorem mainData_at4 : mainData[4]? = some 0x20 := by
  rw [mainData]
  rw [List.getElem?_set_ne (by omega), List.getElem?_set_ne (by omega)]
  rw [List.getElem?_set_self (by simp [List.length_set, mainZero_len])]

theorem mainData_at5 : mainData[5]? = some 0x00 := by
  rw [mainData]
  rw [List.getElem?_set_ne (by omega)]
  rw [List.getElem?_set_self (by simp [List.length_set, mainZero_len])]

theorem mainData_at6 : mainData[6]? = some 0xFF := by
  rw [mainData]
  rw [List.getElem?_set_self (by simp [List.length_set, mainZero_len])]

theorem mainDataStore_at6 : (mainData.set 0x0020 11)[6]? = some 0xFF := by
  rw [List.getElem?_set_ne (by omega)]
  exact mainData_at6

theorem mainDataStore_at32 : (mainData.set 0x0020 11)[0x0020]? = some 11 := by
  rw [List.getElem?_set_self (by simp [mainData_len])]

/-- C1: a Processor constructed with memory size 65536 (`64 * 1024`),
loaded with the bytes `[0x13, 0x0A, 0x07, 0x02, 0x20, 0x00, 0xFF]` at
addresses 0–6 (the write chain of `main` succeeds), run from `pc = 0`,
terminates with `Memory[0x0020] == 11` and `halted == true`. -/
theorem C1_mainScenario :
    mainMemory = .ok ⟨mainData⟩ ∧
    CPU.run 10 { CPU.new (64 * 1024) with memory := ⟨mainData⟩ } =
      .done ⟨7, 11, 0, 0, ⟨mainData.set 0x0020 11⟩, true, 0, false⟩ ∧
    Memory.read ⟨mainData.set 0x0020 11⟩ 0x0020 = .ok 11 := by
  refine ⟨mainMemory_eq, ?_, Memory.read_of_getElem _ _ _ mainDataStore_at32⟩
  have hf0 : CPU.fetch ⟨0, 0, 0, 0, ⟨mainData⟩, false, 0, false⟩ =
      (.ok 0x13, ⟨1, 0, 0, 0, ⟨mainData⟩, false, 0, false⟩) :=
    CPU.fetch_ok _ _ (Memory.read_of_getElem _ _ _ mainData_at0)
  have hof0 : CPU.fetch ⟨1, 0, 0, 0, ⟨mainData⟩, false, 0, false⟩ =
      (.ok 10, ⟨2, 0, 0, 0, ⟨mainData⟩, false, 0, false⟩) :=
    CPU.fetch_ok _ _ (Memory.read_of_getElem _ _ _ mainData_at1)
  have he0 : CPU.execute ⟨1, 0, 0, 0, ⟨mainData⟩, false, 0, false⟩ 0x13 =
      .ok ⟨2, 10, 0, 0, ⟨mainData⟩, false, 0, false⟩ :=
    CPU.execute_lda ⟨1, 0, 0, 0, ⟨mainData⟩, false, 0, false⟩
      ⟨2, 0, 0, 0, ⟨mainData⟩, false, 0, false⟩ 10 hof0
  have hf1 : CPU.fetch ⟨2, 10, 0, 0, ⟨mainData⟩, false, 0, false⟩ =
      (.ok 0x07, ⟨3, 10, 0, 0, ⟨mainData⟩, false, 0, false⟩) :=
    CPU.fetch_ok _ _ (Memory.read_of_getElem _ _ _ mainData_at2)
  have he1 : CPU.execute ⟨3, 10, 0, 0, ⟨mainData⟩, false, 0, false⟩ 0x07 =
      .ok ⟨3, 11, 0, 0, ⟨mainData⟩, false, 0, false⟩ :=
    CPU.execute_inc _
  have hf2 : CPU.fetch ⟨3, 11, 0, 0, ⟨mainData⟩, false, 0, false⟩ =
      (.ok 0x02, ⟨4, 11, 0, 0, ⟨mainData⟩, false, 0, false⟩) :=
    CPU.fetch_ok _ _ (Memory.read_of_getElem _ _ _ mainData_at3)
  have hlo : CPU.fetch ⟨4, 11, 0, 0, ⟨mainData⟩, false, 0, false⟩ =
      (.ok 0x20, ⟨5, 11, 0, 0, ⟨mainData⟩, false, 0, false⟩) :=
    CPU.fetch_ok _ _ (Memory.read_of_getElem _ _ _ mainData_at4)
  have hhi : CPU.fetch ⟨5, 11, 0, 0, ⟨mainData⟩, false, 0, false⟩ =
      (.ok 0x00, ⟨6, 11, 0, 0, ⟨mainData⟩, false, 0, false⟩) :=
    CPU.fetch_ok _ _ (Memory.read_of_getElem _ _ _ mainData_at5)
  have hfa : CPU.fetch_address ⟨4, 11, 0, 0, ⟨mainData⟩, false, 0, false⟩ =
      (.ok 0x0020, ⟨6, 11, 0, 0, ⟨mainData⟩, false, 0, false⟩) :=
    CPU.fetch_address_ok ⟨4, 11, 0, 0, ⟨mainData⟩, false, 0, false⟩
      ⟨5, 11, 0, 0, ⟨mainData⟩, false, 0, false⟩
      ⟨6, 11, 0, 0, ⟨mainData⟩, false, 0, false⟩ 0x20 0x00 hlo hhi
  have hwr : Memory.write ⟨mainData⟩ 0x0020 11 = .ok ⟨mainData.set 0x0020 11⟩ :=
    Memory.write_ok _ 0x0020 11 (by simp [mainData_len])
  have he2 : CPU.execute ⟨4, 11, 0, 0, ⟨mainData⟩, false, 0, false⟩ 0x02 =
      .ok ⟨6, 11, 0, 0, ⟨mainData.set 0x0020 11⟩, false, 0, false⟩ :=
    CPU.execute_store ⟨4, 11, 0, 0, ⟨mainData⟩, false, 0, false⟩
      ⟨6, 11, 0, 0, ⟨mainData⟩, false, 0, false⟩ 0x0020 ⟨mainData.set 0x0020 11⟩ hfa hwr
  have hf3 : CPU.fetch ⟨6, 11, 0, 0, ⟨mainData.set 0x0020 11⟩, false, 0, false⟩ =
      (.ok 0xFF, ⟨7, 11, 0, 0, ⟨mainData.set 0x0020 11⟩, false, 0, false⟩) :=
    CPU.fetch_ok _ _ (Memory.read_of_getElem _ _ _ mainDataStore_at6)
  have he3 : CPU.execute ⟨7, 11, 0, 0, ⟨mainData.set 0x0020 11⟩, false, 0, false⟩ 0xFF =
      .ok ⟨7, 11, 0, 0, ⟨mainData.set 0x0020 11⟩, true, 0, false⟩ :=
    CPU.execute_halt _
  calc CPU.run 10 { CPU.new (64 * 1024) with memory := ⟨mainData⟩ }
      = CPU.run 9 ⟨2, 10, 0, 0, ⟨mainData⟩, false, 0, false⟩ :=
        CPU.run_step_ok 9 _ _ _ _ rfl hf0 he0
    _ = CPU.run 8 ⟨3, 11, 0, 0, ⟨mainData⟩, false, 0, false⟩ :=
        CPU.run_step_ok 8 _ _ _ _ rfl hf1 he1
    _ = CPU.run 7 ⟨6, 11, 0, 0, ⟨mainData.set 0x0020 11⟩, false, 0, false⟩ :=
        CPU.run_step_ok 7 _ _ _ _ rfl hf2 he2
    _ = CPU.run 6 ⟨7, 11, 0, 0, ⟨mainData.set 0x0020 11⟩, true, 0, false⟩ :=
        CPU.run_step_ok 6 _ _ _ _ rfl hf3 he3
    _ = .done ⟨7, 11, 0, 0, ⟨mainData.set 0x0020 11⟩, true, 0, false⟩ :=
        CPU.run_halted 6 _ rfl

/-! ### Characterization and inversion lemmas for fetch -/

theorem CPU.fetch_eq (c : CPU) :
    c.fetch =
      if c.pc ≥ c.memory.size then (.error (.memReadOOB c.pc), c)
      else (.ok (c.memory.data.getD c.pc 0), { c with pc := (c.pc + 1) % 65536 }) := by
  unfold CPU.fetch Memory.read Memory.size
  by_cases hp : c.pc ≥ c.memory.data.length
  · rw [if_pos hp, if_pos hp]
  · rw [if_neg hp, if_neg hp]

theorem CPU.fetch_ok_inv (c c1 : CPU) (b : Nat) (h : c.fetch = (.ok b, c1)) :
    c1 = { c with pc := (c.pc + 1) % 65536 } := by
  rw [CPU.fetch_eq] at h
  by_cases hp : c.pc ≥ c.memory.size
  · rw [if_pos hp] at h
    simp at h
  · rw [if_neg hp] at h
    exact (congrArg Prod.snd h).symm

theorem CPU.fetch_address_ok_inv (c c1 : CPU) (a : Nat) (h : c.fetch_address = (.ok a, c1)) :
    c1 = { c with pc := (c.pc + 2) % 65536 } := by
  unfold CPU.fetch_address at h
  rcases hf1 : c.fetch with ⟨r1, cA⟩
  simp only [hf1] at h
  cases r1 with
  | error e => simp at h
  | ok lo =>
    rcases hf2 : cA.fetch with ⟨r2, cB⟩
    simp only [hf2] at h
    cases r2 with
    | error e => simp at h
    | ok hi =>
      have hc1 : cB = c1 := congrArg Prod.snd h
      have hA := CPU.fetch_ok_inv c cA lo hf1
      have hB := CPU.fetch_ok_inv cA cB hi hf2
      subst hc1
      subst hA
      rw [hB]
      have hmod : ((c.pc + 1) % 65536 + 1) % 65536 = (c.pc + 2) % 65536 := by omega
      simp [hmod]

/-- C2: executing RET (opcode 0x19) increments `sp` by 2 (as a 16-bit
register, modulo 2^16) and then writes the current `pc` as a 16-bit
little-endian word into memory at the new `sp`; it never reads a return
address and leaves `pc` unchanged; it fails exactly when that 16-bit
write at the new `sp` is out of bounds. -/
theorem C2_ret_writes_pc (c : CPU) :
    CPU.execute c 0x19 =
      if (c.sp + 2) % 65536 + 1 ≥ c.memory.size then
        .err (.memWriteU16OOB ((c.sp + 2) % 65536)) { c with sp := (c.sp + 2) % 65536 }
      else
        .ok { c with
              sp := (c.sp + 2) % 65536
              memory := ⟨(c.memory.data.set ((c.sp + 2) % 65536) (c.pc &&& 0x00FF)).set
                ((c.sp + 2) % 65536 + 1) ((c.pc >>> 8) &&& 0x00FF)⟩ } := by
  have hx : CPU.execute c 0x19 = (match c.ret with
    | (.error e, c1) => ExecOutcome.err e c1
    | (.ok _, c1) => ExecOutcome.ok c1) := rfl
  rw [hx]
  unfold CPU.ret Memory.write_u16 Memory.size
  by_cases hb : (c.sp + 2) % 65536 + 1 ≥ c.memory.data.length <;> simp [hb]

/-- C6: executing DIV (opcode 0x16) fails with `DivisionByZero` exactly
when `reg_b == 0`, leaving the whole state unchanged in that case;
otherwise it sets `acc` to the integer quotient `reg_a / reg_b`. -/
theorem C6_div_spec (c : CPU) :
    CPU.execute c 0x16 =
      if c.reg_b = 0 then .err .divisionByZero c
      else .ok { c with acc := c.reg_a / c.reg_b } := by
  have hx : CPU.execute c 0x16 = (match c.div with
    | (.error e, c1) => ExecOutcome.err e c1
    | (.ok _, c1) => ExecOutcome.ok c1) := rfl
  rw [hx]
  unfold CPU.div
  by_cases hb : c.reg_b = 0
  · rw [if_pos hb, if_pos hb]
  · rw [if_neg hb, if_neg hb]

/-- C7: a processor state with `halted == true` makes `run` perform zero
fetch/execute cycles, for any fuel: the loop exits immediately with the
state unchanged. -/
theorem C7_halted_terminal (c : CPU) (h : c.halted = true) (fuel : Nat) :
    CPU.run fuel c = .done c :=
  CPU.run_halted fuel c h

theorem C7_halted_terminal_witness :
    ({ CPU.new 4 with halted := true } : CPU).halted = true ∧
    CPU.run 3 { CPU.new 4 with halted := true } = .done { CPU.new 4 with halted := true } :=
  ⟨rfl, C7_halted_terminal { CPU.new 4 with halted := true } rfl 3⟩

/-- C8: `fetch` reads the byte of memory at address `pc` and advances `pc`
by 1 modulo 2^16; if `pc >= memory size` it fails with the memory
`OutOfBounds` read error and changes nothing. -/
theorem C8_fetch_spec (c : CPU) :
    c.fetch =
      if c.pc ≥ c.memory.size then (.error (.memReadOOB c.pc), c)
      else (.ok (c.memory.data.getD c.pc 0), { c with pc := (c.pc + 1) % 65536 }) :=
  CPU.fetch_eq c

/-! ### The 16-bit little-endian round-trip -/

theorem shiftLeft_lor_eq_add (a b : Nat) (hb : b < 256) :
    (a <<< 8) ||| b = a * 256 + b := by
  apply Nat.eq_of_testBit_eq
  intro i
  rw [Nat.testBit_lor, Nat.testBit_shiftLeft]
  rcases Nat.lt_or_ge i 8 with hi | hi
  · have h8 : decide (8 ≤ i) = false := by simp only [decide_eq_false_iff_not]; omega
    rw [h8, Bool.false_and, Bool.false_or]
    have hmod : (a * 256 + b) % 256 = b := by omega
    have hm := Nat.testBit_mod_two_pow (a * 256 + b) 8 i
    rw [show (2 : Nat) ^ 8 = 256 from rfl, hmod] at hm
    rw [hm, decide_eq_true hi, Bool.true_and]
  · have h8 : decide (8 ≤ i) = true := decide_eq_true hi
    have hbi : b.testBit i = false :=
      Nat.testBit_eq_false_of_lt
        (lt_of_lt_of_le hb (by simpa using Nat.pow_le_pow_right (by omega : 0 < 2) hi))
    rw [h8, Bool.true_and, hbi, Bool.or_false]
    have hsr : (a * 256 + b) >>> 8 = a := by
      rw [Nat.shiftRight_eq_div_pow, show (2 : Nat) ^ 8 = 256 from rfl]
      omega
    calc a.testBit (i - 8)
        = ((a * 256 + b) >>> 8).testBit (i - 8) := by rw [hsr]
      _ = (a * 256 + b).testBit (8 + (i - 8)) := Nat.testBit_shiftRight _
      _ = (a * 256 + b).testBit i := by rw [Nat.add_sub_cancel' hi]

/-- C9: for every memory, every address with `addr + 1 < size`, and every
`v < 65536`, `write16(addr, v)` followed by `read16(addr)` succeeds and
returns exactly `v`. -/
theorem C9_roundtrip (m : Memory) (addr v : Nat)
    (h1 : addr + 1 < m.size) (h2 : v < 65536) :
    ∃ m2, m.write_u16 addr v = .ok m2 ∧ m2.read_u16 addr = .ok v := by
  unfold Memory.size at h1
  refine ⟨⟨(m.data.set addr (v &&& 0x00FF)).set (addr + 1) ((v >>> 8) &&& 0x00FF)⟩, ?_, ?_⟩
  · unfold Memory.write_u16
    rw [if_neg (by omega)]
  · unfold Memory.read_u16
    have hlen : ((m.data.set addr (v &&& 0x00FF)).set (addr + 1)
        ((v >>> 8) &&& 0x00FF)).length = m.data.length := by
      simp [List.length_set]
    rw [if_neg (by rw [hlen]; omega)]
    have hhi : ((m.data.set addr (v &&& 0x00FF)).set (addr + 1)
        ((v >>> 8) &&& 0x00FF)).getD (addr + 1) 0 = (v >>> 8) &&& 0x00FF := by
      rw [List.getD_eq_getElem?_getD,
        List.getElem?_set_self (by simp only [List.length_set]; omega)]
      rfl
    have hlo : ((m.data.set addr (v &&& 0x00FF)).set (addr + 1)
        ((v >>> 8) &&& 0x00FF)).getD addr 0 = v &&& 0x00FF := by
      rw [List.getD_eq_getElem?_getD, List.getElem?_set_ne (by omega),
        List.getElem?_set_self (by omega)]
      rfl
    rw [hhi, hlo]
    have e1 : v &&& 0x00FF = v % 256 := by
      simpa using Nat.and_pow_two_sub_one_eq_mod v 8
    have e2 : (v >>> 8) &&& 0x00FF = v / 256 := by
      have hs : v >>> 8 = v / 256 := by
        rw [Nat.shiftRight_eq_div_pow, show (2 : Nat) ^ 8 = 256 from rfl]
      rw [hs]
      have hmd := Nat.and_pow_two_sub_one_eq_mod (v / 256) 8
      simp only [show (2 : Nat) ^ 8 = 256 from rfl,
        show (2 : Nat) ^ 8 - 1 = 0x00FF from rfl] at hmd
      rw [hmd]
      omega
    have hfin := shiftLeft_lor_eq_add (v / 256) (v % 256) (Nat.mod_lt v (by omega))
    rw [e1, e2, hfin]
    have hdm : v / 256 * 256 + v % 256 = v := by omega
    rw [hdm]

theorem C9_roundtrip_witness :
    1 + 1 < (Memory.new 4).size ∧ (0xABCD : Nat) < 65536 ∧
    ∃ m2, (Memory.new 4).write_u16 1 0xABCD = .ok m2 ∧ m2.read_u16 1 = .ok 0xABCD :=
  ⟨by decide, by decide, C9_roundtrip (Memory.new 4) 1 0xABCD (by decide) (by decide)⟩

/-- C10: PUSH (opcode 0x1F) is not atomic on failure: when `sp > 0` but
the decremented `sp` is outside memory, execute returns the wrapped
write error with `sp` already decremented by 1, so the failed PUSH has
changed the state; this requires a memory smaller than 2^16 (given the
u16 bound on `sp`). -/
theorem C10_push_partial (c : CPU) (h1 : 0 < c.sp)
    (h2 : c.memory.size ≤ c.sp - 1) (h3 : c.sp < 65536) :
    CPU.execute c 0x1F =
      .err (.pushFailed (.memWriteOOB (c.sp - 1))) { c with sp := c.sp - 1 } ∧
    { c with sp := c.sp - 1 } ≠ c ∧ c.memory.size < 65536 := by
  unfold Memory.size at h2
  refine ⟨?_, ?_, by unfold Memory.size; omega⟩
  · have hx : CPU.execute c 0x1F = (match c.push c.reg_a with
      | (.error e, c1) => ExecOutcome.err e c1
      | (.ok _, c1) => ExecOutcome.ok c1) := rfl
    rw [hx]
    unfold CPU.push Memory.write
    rw [if_neg (by omega)]
    simp only [if_pos (show c.sp - 1 ≥ c.memory.data.length by omega)]
  · intro heq
    have hsp := congrArg CPU.sp heq
    simp only at hsp
    omega

theorem C10_push_partial_witness :
    CPU.execute { CPU.new 0 with sp := 1 } 0x1F =
      .err (.pushFailed (.memWriteOOB 0)) { CPU.new 0 with sp := 0 } ∧
    ({ CPU.new 0 with sp := 0 } : CPU) ≠ { CPU.new 0 with sp := 1 } ∧
    ({ CPU.new 0 with sp := 1 } : CPU).memory.size < 65536 :=
  C10_push_partial { CPU.new 0 with sp := 1 } (by decide) (by decide) (by decide)

/-- C4 fails as stated: when the operand fetch fails, JMP (0x10) returns
the error through the run loop while JP (0x1A) hits an `unwrap` panic, so
the outcomes differ at the concrete state `CPU::new(0)`. -/
theorem C4_counterexample :
    CPU.execute (CPU.new 0) 0x10 = .err (.memReadOOB 0) (CPU.new 0) ∧
    CPU.execute (CPU.new 0) 0x1A = .panic (.memReadOOB 0) ∧
    CPU.execute (CPU.new 0) 0x1A ≠ CPU.execute (CPU.new 0) 0x10 := by
  refine ⟨rfl, rfl, ?_⟩
  decide

/-- C4 amended: JP (0x1A) and JN (0x1B) behave identically to each other
in every state; whenever the 16-bit operand fetch succeeds they behave
exactly like JMP (0x10), unconditionally setting `pc` to the operand; but
when the operand fetch fails JMP returns the error while JP/JN panic
(`unwrap`), so the failure outcomes differ. -/
theorem C4_jp_jn_amended (c : CPU) :
    CPU.execute c 0x1A = CPU.execute c 0x1B ∧
    (∀ a c1, c.fetch_address = (.ok a, c1) →
      CPU.execute c 0x1A = .ok { c1 with pc := a } ∧
      CPU.execute c 0x10 = .ok { c1 with pc := a }) ∧
    (∀ e c1, c.fetch_address = (.error e, c1) →
      CPU.execute c 0x10 = .err e c1 ∧ CPU.execute c 0x1A = .panic e) := by
  have hA : CPU.execute c 0x1A = (match c.jp true with
    | .error e => ExecOutcome.panic e
    | .ok cx => ExecOutcome.ok cx) := rfl
  have h10 : CPU.execute c 0x10 = (match c.fetch_address with
    | (.error e, cy) => ExecOutcome.err e cy
    | (.ok a, cy) => ExecOutcome.ok { cy with pc := a }) := rfl
  refine ⟨rfl, ?_, ?_⟩
  · intro a c1 h
    constructor
    · rw [hA]
      unfold CPU.jp
      simp [h]
    · rw [h10]
      simp [h]
  · intro e c1 h
    constructor
    · rw [h10]
      simp [h]
    · rw [hA]
      unfold CPU.jp
      simp [h]

theorem C4_jp_jn_amended_witness :
    CPU.execute (CPU.new 2) 0x1A = .ok ⟨0, 0, 0, 0, ⟨[0, 0]⟩, false, 0, false⟩ ∧
    CPU.execute (CPU.new 2) 0x10 = .ok ⟨0, 0, 0, 0, ⟨[0, 0]⟩, false, 0, false⟩ :=
  ((C4_jp_jn_amended (CPU.new 2)).2.1 0 ⟨2, 0, 0, 0, ⟨[0, 0]⟩, false, 0, false⟩ rfl)

/-! ### Unknown opcodes -/

theorem execute_unknown (c : CPU) (b : Nat) (hk : knownOpcode b = false) :
    CPU.execute c b = .err (.unknownInstruction b c.pc) c := by
  unfold CPU.execute
  split
  all_goals first
    | rfl
    | simp [knownOpcode] at hk

theorem CPU.run_step_err (fuel : Nat) (c c1 c2 : CPU) (b : Nat) (e : Err)
    (hh : c.halted = false) (hf : c.fetch = (.ok b, c1)) (he : c1.execute b = .err e c2) :
    CPU.run (fuel + 1) c = CPU.run fuel { c2 with halted := true } := by
  simp [CPU.run, hh, hf, he]

/-- C3 as stated is false: at the concrete state with `Memory = [0x05]`
and `pc = 0`, the opcode `0x05` is fetched from address 0, yet the
resulting `UnknownInstruction` error carries `pc = 1` — the program
counter after the fetch increment — not the address 0 the opcode was
fetched from. -/
theorem C3_counterexample :
    CPU.fetch ⟨0, 0, 0, 0, ⟨[0x05]⟩, false, 0, false⟩ =
      (.ok 0x05, ⟨1, 0, 0, 0, ⟨[0x05]⟩, false, 0, false⟩) ∧
    CPU.execute ⟨1, 0, 0, 0, ⟨[0x05]⟩, false, 0, false⟩ 0x05 =
      .err (.unknownInstruction 0x05 1) ⟨1, 0, 0, 0, ⟨[0x05]⟩, false, 0, false⟩ ∧
    CPU.execute ⟨1, 0, 0, 0, ⟨[0x05]⟩, false, 0, false⟩ 0x05 ≠
      .err (.unknownInstruction 0x05 0) ⟨1, 0, 0, 0, ⟨[0x05]⟩, false, 0, false⟩ := by
  refine ⟨rfl, rfl, ?_⟩
  decide

/-- C3 amended: for every opcode byte not in the decode table, fetched by
the run loop from address `pc`, execute returns `UnknownInstruction`
carrying that opcode and the already-incremented program counter
(`(pc + 1) % 2^16`, one past the fetch address), the run loop halts, and
no register other than `pc` and `halted` is mutated. -/
theorem C3_unknown_amended (c : CPU) (b : Nat) (_hb : b < 256)
    (hk : knownOpcode b = false) (hh : c.halted = false)
    (hread : c.memory.read c.pc = .ok b) (fuel : Nat) :
    CPU.execute { c with pc := (c.pc + 1) % 65536 } b =
      .err (.unknownInstruction b ((c.pc + 1) % 65536))
        { c with pc := (c.pc + 1) % 65536 } ∧
    CPU.run (fuel + 1) c = .done { c with pc := (c.pc + 1) % 65536, halted := true } := by
  have hf : c.fetch = (.ok b, { c with pc := (c.pc + 1) % 65536 }) := CPU.fetch_ok c b hread
  have he := execute_unknown { c with pc := (c.pc + 1) % 65536 } b hk
  refine ⟨he, ?_⟩
  rw [CPU.run_step_err fuel c _ _ b _ hh hf he]
  exact CPU.run_halted fuel _ rfl

theorem C3_unknown_amended_witness :
    CPU.execute ⟨1, 0, 0, 0, ⟨[0x05]⟩, false, 0, false⟩ 0x05 =
      .err (.unknownInstruction 0x05 1) ⟨1, 0, 0, 0, ⟨[0x05]⟩, false, 0, false⟩ ∧
    CPU.run 1 ⟨0, 0, 0, 0, ⟨[0x05]⟩, false, 0, false⟩ =
      .done ⟨1, 0, 0, 0, ⟨[0x05]⟩, true, 0, false⟩ :=
  C3_unknown_amended ⟨0, 0, 0, 0, ⟨[0x05]⟩, false, 0, false⟩ 0x05
    (by decide) (by decide) rfl rfl 0

/-- C5: CALL (opcode 0x18) first fetches the 16-bit target (propagating a
fetch failure); then with the program counter now just past the operand
bytes (`(pc + 2) % 2^16`), if `sp < 2` it fails with the stack-overflow
error leaving `sp` unchanged, and otherwise (when the 16-bit stack write
is in bounds) it decrements `sp` by 2, writes the current `pc` as a
little-endian word at the new `sp`, and sets `pc` to the target. -/
theorem C5_call_spec (c : CPU) :
    (∀ e c1, c.fetch_address = (.error e, c1) → CPU.execute c 0x18 = .err e c1) ∧
    (∀ a c1, c.fetch_address = (.ok a, c1) →
      c1.sp = c.sp ∧ c1.pc = (c.pc + 2) % 65536 ∧
      (c1.sp < 2 → CPU.execute c 0x18 = .err .stackOverflowCall c1) ∧
      (2 ≤ c1.sp → c1.sp - 2 + 1 < c1.memory.size →
        CPU.execute c 0x18 =
          .ok { c1 with
                sp := c1.sp - 2
                pc := a
                memory := ⟨(c1.memory.data.set (c1.sp - 2) (c1.pc &&& 0x00FF)).set
                  (c1.sp - 2 + 1) ((c1.pc >>> 8) &&& 0x00FF)⟩ })) := by
  have hx : CPU.execute c 0x18 = (match CPU.call c with
    | (.error e, cy) => ExecOutcome.err e cy
    | (.ok _, cy) => ExecOutcome.ok cy) := rfl
  constructor
  · intro e c1 h
    rw [hx]
    unfold CPU.call
    simp only [h]
  · intro a c1 h
    have hinv := CPU.fetch_address_ok_inv c c1 a h
    refine ⟨by rw [hinv], by rw [hinv], ?_, ?_⟩
    · intro hsp
      rw [hx]
      unfold CPU.call
      simp only [h]
      rw [if_pos hsp]
    · intro hsp hbound
      unfold Memory.size at hbound
      rw [hx]
      unfold CPU.call
      simp only [h]
      rw [if_neg (by omega)]
      have hw : Memory.write_u16 c1.memory (c1.sp - 2) c1.pc =
          .ok ⟨(c1.memory.data.set (c1.sp - 2) (c1.pc &&& 0x00FF)).set
            (c1.sp - 2 + 1) ((c1.pc >>> 8) &&& 0x00FF)⟩ := by
        unfold Memory.write_u16
        rw [if_neg (by omega)]
      simp only [hw]

theorem C5_call_spec_witness :
    CPU.execute ⟨0, 0, 0, 0, ⟨List.replicate 16 0⟩, false, 10, false⟩ 0x18 =
      .ok ⟨0, 0, 0, 0, ⟨((List.replicate 16 0).set 8 2).set 9 0⟩, false, 8, false⟩ :=
  ((C5_call_spec ⟨0, 0, 0, 0, ⟨List.replicate 16 0⟩, false, 10, false⟩).2 0
    ⟨2, 0, 0, 0, ⟨List.replicate 16 0⟩, false, 10, false⟩ rfl).2.2.2
    (by decide) (by decide)
